import Mathlib

/-!
Verification of the CryptoSignals trading engine (shallow embedding).

Numeric model: Python floats are embedded as exact rationals (`ℚ`).
`round(x, d)` is modelled as decimal round-half-to-even (`pyRound`),
`int(x)` as truncation toward zero (`pyInt`).  Python dicts with
`.get(key, default)` are modelled as structures whose fields carry the
resolved values (the documented defaults are recorded next to each field).
-/

namespace CryptoSignals

/-- Round-half-to-even to the nearest integer (Python `round` semantics on
the exact value). -/
def rhe (x : ℚ) : ℤ :=
  if x - ⌊x⌋ < 1/2 then ⌊x⌋
  else if 1/2 < x - ⌊x⌋ then ⌊x⌋ + 1
  else if Even ⌊x⌋ then ⌊x⌋ else ⌊x⌋ + 1

/-- Python `round(x, d)`: round-half-to-even at `d` decimal places. -/
def pyRound (d : ℕ) (x : ℚ) : ℚ := (rhe (x * 10 ^ d) : ℚ) / 10 ^ d

/-- Python `int(x)`: truncation toward zero. -/
def pyInt (x : ℚ) : ℤ := if 0 ≤ x then ⌊x⌋ else -⌊-x⌋

/-- `x` is an exact multiple of `10 ^ (-d)` (no information lost by rounding). -/
def Quantized (d : ℕ) (x : ℚ) : Prop := ∃ n : ℤ, x = (n : ℚ) / 10 ^ d

/-! Basic enumerations of the data model. -/

inductive Dir | long | short
deriving DecidableEq, Repr

inductive BotVersion | V1 | V2 | V3 | V4
deriving DecidableEq, Repr

inductive Mode | scalping | swing
deriving DecidableEq, Repr

/-! ## Tradeability layer (src/app/core/tradeability.py)

Each check returns only its numeric score; the human-readable reason
strings of the source are represented by the `KillName` tag naming which
check fired the kill switch.  `adx_val` is `Option ℚ`: `none` stands for
Python `None` or NaN. -/

structure Thresholds where
  atr_min_ratio : ℚ
  atr_max_ratio : ℚ
  volume_min_ratio : ℚ
  spread_kill : ℚ
  spread_max_scalp : ℚ
  spread_max_swing : ℚ
  funding_kill : ℚ
  funding_max : ℚ
  oi_drop_max_pct : ℚ
deriving DecidableEq, Repr

/-- Configured check weights; `order_flow = none` models the key being
absent from the weights dict (it is configured for V4 only). -/
structure TWeights where
  volatility : ℚ
  volume : ℚ
  spread : ℚ
  depth : ℚ
  funding : ℚ
  oi_stability : ℚ
  adx_trend : ℚ
  order_flow : Option ℚ
deriving DecidableEq, Repr

def check_volatility (t : Thresholds) (atr_current atr_mean : ℚ) : ℚ :=
  if atr_mean = 0 then 0
  else
    let ratio := atr_current / atr_mean
    if ratio < t.atr_min_ratio then 0
    else if t.atr_max_ratio < ratio then 0
    else if 8/10 ≤ ratio ∧ ratio ≤ 2 then 1
    else if ratio < 8/10 then
      max 0 (min 1 ((ratio - t.atr_min_ratio) / (8/10 - t.atr_min_ratio)))
    else max 0 (min 1 (1 - (ratio - 2) / (t.atr_max_ratio - 2)))

def check_volume (t : Thresholds) (vol_current vol_mean : ℚ) : ℚ :=
  if vol_mean = 0 then 0
  else
    let ratio := vol_current / vol_mean
    if ratio < t.volume_min_ratio then 0
    else if 2 ≤ ratio then 1
    else min 1 ((ratio - t.volume_min_ratio) / (2 - t.volume_min_ratio))

def check_spread (t : Thresholds) (spread_pct : ℚ) (mode : Mode) : ℚ :=
  if 900 ≤ spread_pct then 7/10
  else if t.spread_kill ≤ spread_pct then -1
  else
    let max_spread := if mode = .scalping then t.spread_max_scalp else t.spread_max_swing
    if max_spread ≤ spread_pct then 0
    else max 0 (1 - spread_pct / max_spread)

def check_depth (bid_depth ask_depth : ℚ) (min_depth : ℚ := 1000) : ℚ :=
  let total := bid_depth + ask_depth
  if total = 0 then 7/10
  else if total < min_depth then 0
  else if min_depth * 5 ≤ total then 1
  else min 1 ((total - min_depth) / (min_depth * 4))

def check_funding (t : Thresholds) (funding_rate : ℚ) : ℚ :=
  let abs_fr := |funding_rate|
  if t.funding_kill ≤ abs_fr then -1
  else if t.funding_max ≤ abs_fr then 0
  else 1 - abs_fr / t.funding_max

def check_oi_stability (t : Thresholds) (oi_change_pct : ℚ) : ℚ :=
  if oi_change_pct < -t.oi_drop_max_pct then 0
  else if |oi_change_pct| < 1 then 1
  else max 0 (1 - |oi_change_pct| / t.oi_drop_max_pct)

def check_adx_trend (adx_val : Option ℚ) : ℚ :=
  match adx_val with
  | none => 1/2
  | some a => if 30 ≤ a then 1 else if 25 ≤ a then 8/10 else if 20 ≤ a then 1/2 else 1/5

def check_order_flow (bid_depth ask_depth : ℚ) : ℚ :=
  let total := bid_depth + ask_depth
  if total = 0 then 1/2
  else
    let ratio := bid_depth / total
    if 6/10 < ratio then 1
    else if ratio < 4/10 then 1
    else if 45/100 ≤ ratio ∧ ratio ≤ 55/100 then 1/2
    else 7/10

inductive KillName
  | volatility | volume | spread | depth | funding | oi_stability | adx_trend | order_flow
deriving DecidableEq, Repr

structure TradeabilityResult where
  is_tradable : Bool
  score : ℚ
  kill_reason : Option KillName
deriving DecidableEq, Repr

/-- `evaluate_tradeability`: all checks are computed, the first check whose
score is `-1` (iterating in dict insertion order) kills; otherwise the
weighted sum decides.  The `order_flow` check participates only when its
weight is configured. -/
def evaluate_tradeability (t : Thresholds) (w : TWeights) (min_score : ℚ)
    (atr_current atr_mean vol_current vol_mean spread_pct bid_depth ask_depth
     funding_rate oi_change_pct : ℚ) (mode : Mode) (adx_val : Option ℚ) :
    TradeabilityResult :=
  let cVolat := check_volatility t atr_current atr_mean
  let cVol := check_volume t vol_current vol_mean
  let cSpread := check_spread t spread_pct mode
  let cDepth := check_depth bid_depth ask_depth
  let cFund := check_funding t funding_rate
  let cOI := check_oi_stability t oi_change_pct
  let cADX := check_adx_trend adx_val
  let cOF := check_order_flow bid_depth ask_depth
  if cVolat = -1 then ⟨false, 0, some .volatility⟩
  else if cVol = -1 then ⟨false, 0, some .volume⟩
  else if cSpread = -1 then ⟨false, 0, some .spread⟩
  else if cDepth = -1 then ⟨false, 0, some .depth⟩
  else if cFund = -1 then ⟨false, 0, some .funding⟩
  else if cOI = -1 then ⟨false, 0, some .oi_stability⟩
  else if cADX = -1 then ⟨false, 0, some .adx_trend⟩
  else if w.order_flow.isSome ∧ cOF = -1 then ⟨false, 0, some .order_flow⟩
  else
    let weighted := w.volatility * cVolat + w.volume * cVol + w.spread * cSpread
      + w.depth * cDepth + w.funding * cFund + w.oi_stability * cOI
      + w.adx_trend * cADX + (match w.order_flow with | some wf => wf * cOF | none => 0)
    ⟨decide (min_score ≤ weighted), pyRound 3 weighted, none⟩

/-- The `_no_trade` reason tags of `analyze_pair` that the claims mention. -/
inductive AnalyzeTag | NON_TRADABLE | V4_BASE_BELOW_MIN | SCORE_BELOW_MIN
deriving DecidableEq, Repr

/-- Lines 86–95 of signal_engine.py: a non-tradable result short-circuits
`analyze_pair` to a `no_trade` record with reason NON-TRADABLE. -/
def tradeability_gate (tr : TradeabilityResult) : Option AnalyzeTag :=
  if tr.is_tradable then none else some .NON_TRADABLE

/-! ## Signal engine final scoring (src/app/core/signal_engine.py lines 196–308)

The scoring tail of `analyze_pair`, embedded over the values produced by the
upstream layers (tradeability score, sentiment-adjusted direction score,
entry record, candle modifier, regime modifier, MTF confluence, learning
modifier).  Those upstream values are free inputs here; the arithmetic and
gating from `setup_score` to the emitted `score` field is the source's. -/

/-- `scoring.weights` from the config (keys tradeability/direction/setup/sentiment). -/
structure ScoringWeights where
  tradeability : ℚ
  direction : ℚ
  setup : ℚ
  sentiment : ℚ
deriving DecidableEq, Repr

/-- Lines 236–251: V4 uses hard-coded per-mode weights, other bots the config. -/
def select_weights (is_v4 : Bool) (mode : Mode) (cfg : ScoringWeights) : ScoringWeights :=
  if is_v4 ∧ mode = .scalping then ⟨35/100, 30/100, 30/100, 5/100⟩
  else if is_v4 ∧ mode = .swing then ⟨30/100, 25/100, 25/100, 20/100⟩
  else cfg

/-- Lines 229–232. -/
def sentiment_normalized (direction : Dir) (sentiment_score : ℚ) : ℚ :=
  if direction = .long then (sentiment_score + 100) / 2 else (-sentiment_score + 100) / 2

/-- Lines 213–227 (V4 only; the caller gates on `is_v4`). -/
def vwap_confluence_modifier (direction : Dir) (vwap_val last_close : ℚ) : ℤ :=
  if 0 < vwap_val ∧ 0 < last_close then
    let vwap_dist_pct := (last_close - vwap_val) / vwap_val * 100
    match direction with
    | .long => if 1/10 < vwap_dist_pct then 5 else if vwap_dist_pct < -(1/2) then -5 else 0
    | .short => if vwap_dist_pct < -(1/10) then 5 else if 1/2 < vwap_dist_pct then -5 else 0
  else 0

/-- Lines 201–210: setup score assembly with candle modifier (all bots) and
regime modifier (V4). -/
def setup_score_calc (pattern_score vol_score rr_score confluence_score
    candle_modifier regime_mod : ℤ) (is_v4 : Bool) : ℤ :=
  let s0 := pattern_score + vol_score + rr_score + confluence_score
  let s1 := min 100 (max 0 (s0 + candle_modifier))
  if is_v4 then max 0 (min 100 (s1 + regime_mod)) else s1

/-- Line 253: `int(...)` of the weighted sum of the four layers. -/
def final_pre_score (tradeability_score : ℚ) (direction_score setup_score : ℤ)
    (sent_norm : ℚ) (w : ScoringWeights) : ℤ :=
  pyInt (tradeability_score * 100 * w.tradeability + direction_score * w.direction
    + setup_score * w.setup + sent_norm * w.sentiment)

inductive SignalOutcome
  | signal (score : ℤ)
  | no_trade (tag : AnalyzeTag)
deriving DecidableEq, Repr

/-- Lines 262–308: the V4 base-score gate, the V4 modifiers, the final clamp
to [0,100] and the min-score gate. -/
def final_scoring_gate (is_v4 : Bool) (min_score : ℚ) (final0 : ℤ)
    (mtf_confluence : ℚ) (vwap_modifier learning_modifier : ℤ) : SignalOutcome :=
  if is_v4 ∧ ((max 0 (min 100 final0) : ℤ) : ℚ) < min_score then .no_trade .V4_BASE_BELOW_MIN
  else
    let mtf_modifier := if is_v4 then pyInt mtf_confluence else 0
    let fs1 := if is_v4 then final0 + mtf_modifier + vwap_modifier + learning_modifier else final0
    let fs := max 0 (min 100 fs1)
    if (fs : ℚ) < min_score then .no_trade .SCORE_BELOW_MIN else .signal fs

/-- The whole scoring tail of `analyze_pair` (setup score, weights, weighted
sum, V4 gate and modifiers, final gate). -/
def analyze_scoring (is_v4 : Bool) (mode : Mode) (cfgW : ScoringWeights)
    (tradeability_score : ℚ) (direction_score : ℤ)
    (pattern_score vol_score rr_score confluence_score candle_modifier regime_mod : ℤ)
    (sentiment_score mtf_confluence vwap_val last_close : ℚ)
    (learning_modifier : ℤ) (direction : Dir) (min_score : ℚ) : SignalOutcome :=
  let setup := setup_score_calc pattern_score vol_score rr_score confluence_score
    candle_modifier regime_mod is_v4
  let vwapm := if is_v4 then vwap_confluence_modifier direction vwap_val last_close else 0
  let sentn := sentiment_normalized direction sentiment_score
  let w := select_weights is_v4 mode cfgW
  let f0 := final_pre_score tradeability_score direction_score setup sentn w
  final_scoring_gate is_v4 min_score f0 mtf_confluence vwapm learning_modifier

/-- The V4 pre-modifier base score (line 264), over the same inputs. -/
def analyze_base_score (is_v4 : Bool) (mode : Mode) (cfgW : ScoringWeights)
    (tradeability_score : ℚ) (direction_score : ℤ)
    (pattern_score vol_score rr_score confluence_score candle_modifier regime_mod : ℤ)
    (sentiment_score : ℚ) (direction : Dir) : ℤ :=
  let setup := setup_score_calc pattern_score vol_score rr_score confluence_score
    candle_modifier regime_mod is_v4
  let sentn := sentiment_normalized direction sentiment_score
  let w := select_weights is_v4 mode cfgW
  max 0 (min 100 (final_pre_score tradeability_score direction_score setup sentn w))

/-! ## Candle confirmation (src/app/core/entry.py lines 358–450)

`Pat` embeds the candle-pattern strings bullish/bearish/neutral/none.
A `Candle` is the last OHLC row of the DataFrame (fields o/h/l/c stand for
open/high/low/close; `open` is reserved in Lean).  Reason strings are
dropped; the control flow and the numeric modifier are the source's. -/

inductive Pat | bullish | bearish | neutral | nonePat
deriving DecidableEq, Repr

structure Candle where
  o : ℚ
  h : ℚ
  l : ℚ
  c : ℚ
deriving DecidableEq, Repr

structure CandleCtx where
  big_candle_resistance : Bool
  big_candle_support : Bool
  last_candle_direction : Pat
  consecutive_direction : ℕ
deriving DecidableEq, Repr

structure CandleCheck where
  confirmed : Bool
  score_modifier : ℤ
deriving DecidableEq, Repr

def candle_confirmation (direction : Dir) (ctx : CandleCtx)
    (engulfing doji hammer shooting_star : Pat) (lastCandle : Option Candle) : CandleCheck :=
  if direction = .long ∧ ctx.big_candle_resistance then ⟨false, 0⟩
  else if direction = .short ∧ ctx.big_candle_support then ⟨false, 0⟩
  else
    let strong : Bool := match lastCandle with
      | some cd => decide (0 < cd.h - cd.l ∧ 3/5 < |cd.c - cd.o| / (cd.h - cd.l))
      | none => false
    let m1 : ℤ :=
      if direction = .long ∧ ctx.last_candle_direction = .bearish ∧ strong = true then -10 else 0
    let m2 : ℤ :=
      if direction = .short ∧ ctx.last_candle_direction = .bullish ∧ strong = true then -10 else 0
    let m3 : ℤ := match direction with
      | .long => (if engulfing = .bullish ∨ hammer = .bullish then 8 else 0)
          + (if shooting_star = .bearish then -15 else 0)
      | .short => (if engulfing = .bearish ∨ shooting_star = .bearish then 8 else 0)
          + (if hammer = .bullish then -15 else 0)
    let m4 : ℤ := if doji ≠ .nonePat then -5 else 0
    let m5 : ℤ := if 3 ≤ ctx.consecutive_direction ∧
        ((direction = .long ∧ ctx.last_candle_direction = .bearish)
          ∨ (direction = .short ∧ ctx.last_candle_direction = .bullish)) then -10 else 0
    ⟨true, m1 + m2 + m3 + m4 + m5⟩

/-! ## Position monitor (src/app/core/position_monitor.py)

The per-position state machine.  Exchange-order side effects (cancel and
replace of SL orders), persistence writes and Telegram messages are
dropped; the numeric state transitions are the source's.  `entry_time` and
`now` are seconds on a common clock (the source parses ISO timestamps).
Settings mirror the `.get(key, default)` accesses: each field records the
documented default. -/

inductive PState | active | breakeven | trailing | trailing_tp | closed
deriving DecidableEq, Repr

inductive CloseReason
  | tp3 | sl | min_profit | max_loss | quick_exit | stale_timeout | profit_giveback
deriving DecidableEq, Repr

/-- Per-mode settings read by the monitor (`mode_cfg.get(key, default)`). -/
structure ModeCfg where
  min_profit_usd : ℚ := 0
  max_loss_usd : ℚ := 0
  max_hold_seconds : ℚ := 0
  breakeven_at_pct : ℚ := 50
  trail_activation_pct : ℚ := 65
  trail_behind_pct : ℚ := 35
deriving DecidableEq, Repr

/-- Bot settings read by the monitor: `fees.taker_pct` (default 0),
`profit_protection.{activation_fee_mult, giveback_pct}` (defaults 3.0, 50),
`trailing_tp.{enabled, tp3_close_pct, trail_atr}` (defaults falsy, 50, 1.0),
and the two per-mode blocks. -/
structure Settings where
  taker_pct : ℚ := 0
  activation_fee_mult : ℚ := 3
  giveback_pct : ℚ := 50
  trailing_enabled : Bool := false
  trailing_tp3_close_pct : ℚ := 50
  trailing_trail_atr : ℚ := 1
  scalping_cfg : ModeCfg := {}
  swing_cfg : ModeCfg := {}
deriving DecidableEq, Repr

/-- `self.settings.get(mode, {})` (`None` settings give all defaults). -/
def getModeCfg (st : Option Settings) (m : Mode) : ModeCfg :=
  match st, m with
  | some s, .scalping => s.scalping_cfg
  | some s, .swing => s.swing_cfg
  | none, _ => {}

structure Position where
  direction : Dir
  entry_price : ℚ
  stop_loss : ℚ
  tp1 : ℚ
  tp2 : ℚ
  tp3 : ℚ
  original_quantity : ℚ
  remaining_quantity : ℚ
  tp1_close_pct : ℚ := 40
  tp2_close_pct : ℚ := 30
  tp3_close_pct : ℚ := 30
  position_size_usd : ℚ := 0
  margin_required : ℚ := 0
  mode : Mode := .scalping
  state : PState := .active
  tp1_hit : Bool := false
  tp2_hit : Bool := false
  tp3_hit : Bool := false
  sl_hit : Bool := false
  entry_time : Option ℚ := none
  max_profit_usd : ℚ := 0
  max_drawdown_usd : ℚ := 0
  entry_atr : ℚ := 0
  original_sl : ℚ := 0
  close_reason : Option CloseReason := none
deriving DecidableEq, Repr

/-- `_get_rt_fees`. -/
def get_rt_fees (st : Option Settings) (pos : Position) : ℚ :=
  match st with
  | none => 0
  | some s => pos.position_size_usd * (s.taker_pct / 100) * 2

/-- `_fee_adjusted_breakeven` (V4 only; entry price otherwise).  The
quantity is `remaining_quantity or original_quantity` (Python falsy-or). -/
def fee_adjusted_breakeven (bv : BotVersion) (st : Option Settings) (pos : Position) : ℚ :=
  match st with
  | none => pos.entry_price
  | some s =>
    if bv ≠ .V4 then pos.entry_price
    else if s.taker_pct ≤ 0 then pos.entry_price
    else
      let qty := if pos.remaining_quantity = 0 then pos.original_quantity
        else pos.remaining_quantity
      if qty ≤ 0 then pos.entry_price
      else
        let fees_total := pos.position_size_usd * (s.taker_pct / 100) * 2
        let fee_per_unit := fees_total / qty
        if pos.direction = .long then pyRound 8 (pos.entry_price + fee_per_unit)
        else pyRound 8 (pos.entry_price - fee_per_unit)

/-- `_calc_unrealized_pnl`. -/
def calc_unrealized_pnl (pos : Position) (price : ℚ) : ℚ :=
  let entry := pos.entry_price
  let unrealized := (if pos.direction = .long then price - entry else entry - price)
    * pos.remaining_quantity
  let r1 : ℚ := if pos.tp1_hit then
      (if pos.direction = .long then pos.tp1 - entry else entry - pos.tp1)
        * (pos.original_quantity * (pos.tp1_close_pct / 100))
    else 0
  let r2 : ℚ := if pos.tp2_hit then
      (if pos.direction = .long then pos.tp2 - entry else entry - pos.tp2)
        * (pos.original_quantity * (pos.tp2_close_pct / 100))
    else 0
  r1 + r2 + unrealized

/-- `_calculate_total_pnl`. -/
def calculate_total_pnl (pos : Position) (close_reason : CloseReason) : ℚ :=
  let entry := pos.entry_price
  let p1 : ℚ := if pos.tp1_hit then
      (if pos.direction = .long then pos.tp1 - entry else entry - pos.tp1)
        * (pos.original_quantity * (pos.tp1_close_pct / 100))
    else 0
  let p2 : ℚ := if pos.tp2_hit then
      (if pos.direction = .long then pos.tp2 - entry else entry - pos.tp2)
        * (pos.original_quantity * (pos.tp2_close_pct / 100))
    else 0
  let exit_price := if close_reason = .tp3 then pos.tp3 else pos.stop_loss
  p1 + p2 + (if pos.direction = .long then exit_price - entry else entry - exit_price)
    * pos.remaining_quantity

/-- The numeric outcome of `_close_and_journal`: the V4 fee deduction, the
rounded PnL persisted to `close_position` and `insert_trade`, and the
`pnl_usd` handed to `AdaptiveLearner.record_trade_context` (V4 only; `none`
models the learner path being skipped for other bots). -/
structure Journal where
  fees_usd : ℚ
  pnl_usd : ℚ
  journal_pnl : ℚ
  pnl_pct : ℚ
  win : Bool
  ctx_pnl : Option ℚ
deriving DecidableEq, Repr

def close_and_journal (bv : BotVersion) (st : Option Settings) (pos : Position)
    (close_reason : CloseReason) (exit_price pnl0 : ℚ) : Journal :=
  let fees_usd : ℚ :=
    match st with
    | some s => if bv = .V4 ∧ 0 < s.taker_pct
        then pos.position_size_usd * (s.taker_pct / 100) * 2 else 0
    | none => 0
  let pnl_usd := pnl0 - fees_usd
  let pnl_pct := if pos.margin_required = 0 then 0 else pnl_usd / pos.margin_required * 100
  { fees_usd := fees_usd
    pnl_usd := pnl_usd
    journal_pnl := pyRound 4 pnl_usd
    pnl_pct := pnl_pct
    win := decide (0 < pnl_usd)
    ctx_pnl := if bv = .V4 then some (pyRound 4 pnl_usd) else none }

/-- Closing a position in memory (`pos["state"] = "closed"` plus the
`close_reason` that `_close_and_journal` persists). -/
def close_with (pos : Position) (r : CloseReason) : Position :=
  { pos with state := .closed, close_reason := some r }

/-- `_handle_tp1_hit` (order cancel and replace dropped). -/
def handle_tp1_hit (bv : BotVersion) (st : Option Settings) (pos : Position) : Position :=
  let be_price := fee_adjusted_breakeven bv st pos
  let qty_remaining := pyRound 6 (pos.original_quantity * (1 - pos.tp1_close_pct / 100))
  { pos with
    tp1_hit := true
    stop_loss := be_price
    remaining_quantity := qty_remaining
    state := .breakeven }

/-- `_handle_tp2_hit`. -/
def handle_tp2_hit (pos : Position) : Position :=
  let qty_remaining := pyRound 6 (pos.original_quantity * (pos.tp3_close_pct / 100))
  { pos with
    tp2_hit := true
    stop_loss := pos.tp1
    remaining_quantity := qty_remaining
    state := .trailing }

/-- `_handle_tp3_hit`: V4 trailing-TP downsize when configured and the
trailing quantity is positive, full close otherwise. -/
def handle_tp3_hit (bv : BotVersion) (st : Option Settings) (pos : Position) : Position :=
  let trailingEnabled : Bool := match st with | some s => s.trailing_enabled | none => false
  if bv = .V4 ∧ trailingEnabled = true then
    let tp3cp : ℚ := match st with | some s => s.trailing_tp3_close_pct | none => 50
    let trail_atr : ℚ := match st with | some s => s.trailing_trail_atr | none => 1
    let close_qty := pyRound 6 (pos.remaining_quantity * tp3cp / 100)
    let trail_qty := pyRound 6 (pos.remaining_quantity - close_qty)
    if 0 < trail_qty then
      let trail_distance := if 0 < pos.entry_atr then pos.entry_atr * trail_atr
        else |pos.tp3 - pos.entry_price| * (3/10)
      let trail_sl := if pos.direction = .long then pyRound 8 (pos.tp3 - trail_distance)
        else pyRound 8 (pos.tp3 + trail_distance)
      { pos with
        tp3_hit := true
        remaining_quantity := trail_qty
        stop_loss := trail_sl
        state := .trailing_tp }
    else { pos with tp3_hit := true, state := .closed, close_reason := some .tp3 }
  else { pos with tp3_hit := true, state := .closed, close_reason := some .tp3 }

/-- `_handle_sl_hit`. -/
def handle_sl_hit (pos : Position) : Position :=
  { pos with sl_hit := true, state := .closed, close_reason := some .sl }

/-- Step 1 of `_early_profit_protection`: move the SL to the fee-adjusted
breakeven once enough progress toward TP1 is made. -/
def early_be_step (progress be_trigger be_price : ℚ) (pos : Position) : Position :=
  if be_trigger ≤ progress ∧ pos.state = .active then
    if (pos.direction = .long ∧ pos.stop_loss < be_price)
        ∨ (pos.direction = .short ∧ be_price < pos.stop_loss) then
      { pos with stop_loss := be_price, state := .breakeven }
    else pos
  else pos

/-- Step 2 of `_early_profit_protection`: trail the SL to lock profits
(reads the state possibly updated by step 1). -/
def early_trail_step (progress trail_trigger trail_behind entry_price tp1_distance : ℚ)
    (pos1 : Position) : Position :=
  if trail_trigger ≤ progress ∧ pos1.state = .breakeven ∧ pos1.tp1_hit = false then
    let lock_pct := progress - trail_behind
    if pos1.direction = .long then
      let new_sl := pyRound 8 (entry_price + tp1_distance * lock_pct)
      if pos1.stop_loss < new_sl then { pos1 with stop_loss := new_sl } else pos1
    else
      let new_sl := pyRound 8 (entry_price - tp1_distance * lock_pct)
      if new_sl < pos1.stop_loss then { pos1 with stop_loss := new_sl } else pos1
  else pos1

/-- `_early_profit_protection`: progress computation, then the breakeven
move and the trailing move in sequence. -/
def early_profit_protection (bv : BotVersion) (st : Option Settings) (pos : Position)
    (price : ℚ) : Position :=
  let entry_price := pos.entry_price
  let tp1_distance := |pos.tp1 - entry_price|
  if tp1_distance ≤ 0 then pos
  else
    let progress := if pos.direction = .long then (price - entry_price) / tp1_distance
      else (entry_price - price) / tp1_distance
    if progress ≤ 0 then pos
    else
      let cfg := getModeCfg st pos.mode
      early_trail_step progress (cfg.trail_activation_pct / 100) (cfg.trail_behind_pct / 100)
        entry_price tp1_distance
        (early_be_step progress (cfg.breakeven_at_pct / 100)
          (fee_adjusted_breakeven bv st pos) pos)

/-- `_get_min_profit_usd` (disabled for V4). -/
def get_min_profit_usd (bv : BotVersion) (st : Option Settings) (pos : Position) : ℚ :=
  if bv = .V4 then 0 else (getModeCfg st pos.mode).min_profit_usd

/-- `_get_max_loss_usd`. -/
def get_max_loss_usd (st : Option Settings) (pos : Position) : ℚ :=
  (getModeCfg st pos.mode).max_loss_usd

/-- `_check_quick_exit`: disabled for V4, always `False`. -/
def check_quick_exit (pos : Position) (current_pnl : ℚ) : Bool := false

/-- `_check_stale_position`.  `now` and `entry_time` are seconds; a missing
or unparsable `entry_time` is `none`. -/
def check_stale_position (bv : BotVersion) (st : Option Settings) (pos : Position)
    (now current_pnl : ℚ) : Bool :=
  let max_hold := (getModeCfg st pos.mode).max_hold_seconds
  if max_hold ≤ 0 then false
  else match pos.entry_time with
    | none => false
    | some t =>
      if now - t < max_hold then false
      else if bv = .V4 then decide (current_pnl < 0)
      else decide (current_pnl < 5/100)

/-- `_check_profit_giveback` (V4 only). -/
def check_profit_giveback (bv : BotVersion) (st : Option Settings) (pos : Position)
    (current_pnl : ℚ) : Bool :=
  match st with
  | none => false
  | some s =>
    if bv ≠ .V4 then false
    else
      let peak := pos.max_profit_usd
      let fees := get_rt_fees (some s) pos
      if peak < fees * s.activation_fee_mult then false
      else
        let giveback_ratio := if 0 < peak then (peak - current_pnl) / peak * 100 else 0
        if giveback_ratio < s.giveback_pct then false
        else decide (0 < current_pnl - fees)

/-- The V4-only preflight tracking of `_on_price_tick` (lines 206–211):
raise `_max_profit_usd` and lower `_max_drawdown_usd` with the current
unrealized PnL. -/
def v4_track (bv : BotVersion) (pos : Position) (pnl_track : ℚ) : Position :=
  if bv = .V4 then
    let a := if pos.max_profit_usd < pnl_track
      then { pos with max_profit_usd := pnl_track } else pos
    if pnl_track < a.max_drawdown_usd
      then { a with max_drawdown_usd := pnl_track } else a
  else pos

/-- The TP/SL tail of `_on_price_tick`: before TP1, early profit protection
(`p2`) followed by the TP1 or SL transition; between TP1 and TP2, the TP2 or
SL transition; after TP2, the TP3 or SL transition. -/
def tick_tp_chain (bv : BotVersion) (st : Option Settings) (price : ℚ)
    (p1 : Position) : Position :=
  if p1.tp1_hit = false then
    if (if (early_profit_protection bv st p1 price).direction = .long
        then (early_profit_protection bv st p1 price).tp1 ≤ price
        else price ≤ (early_profit_protection bv st p1 price).tp1) then
      handle_tp1_hit bv st (early_profit_protection bv st p1 price)
    else if (if (early_profit_protection bv st p1 price).direction = .long
        then price ≤ (early_profit_protection bv st p1 price).stop_loss
        else (early_profit_protection bv st p1 price).stop_loss ≤ price) then
      handle_sl_hit (early_profit_protection bv st p1 price)
    else early_profit_protection bv st p1 price
  else if p1.tp2_hit = false then
    if (if p1.direction = .long then p1.tp2 ≤ price else price ≤ p1.tp2) then
      handle_tp2_hit p1
    else if (if p1.direction = .long then price ≤ p1.stop_loss else p1.stop_loss ≤ price) then
      handle_sl_hit p1
    else p1
  else
    if (if p1.direction = .long then p1.tp3 ≤ price else price ≤ p1.tp3) then
      handle_tp3_hit bv st p1
    else if (if p1.direction = .long then price ≤ p1.stop_loss else p1.stop_loss ≤ price) then
      handle_sl_hit p1
    else p1

/-- The closes evaluated before the TP/SL chain: the V4-only quick exit,
stale timeout and profit giveback, then the mode-level min-profit and
max-loss caps (`min_profit` and `max_loss` are the config lookups,
`current_pnl` the unrealized PnL of the tracked position). -/
def tick_core (bv : BotVersion) (st : Option Settings) (now price pnl_track : ℚ)
    (p1 : Position) : Position :=
  if bv = .V4 ∧ check_quick_exit p1 pnl_track = true then close_with p1 .quick_exit
  else if bv = .V4 ∧ check_stale_position bv st p1 now pnl_track = true then
    close_with p1 .stale_timeout
  else if bv = .V4 ∧ check_profit_giveback bv st p1 pnl_track = true then
    close_with p1 .profit_giveback
  else if 0 < get_min_profit_usd bv st p1
      ∧ get_min_profit_usd bv st p1 ≤ calc_unrealized_pnl p1 price then
    close_with p1 .min_profit
  else if 0 < get_min_profit_usd bv st p1 ∧ 0 < get_max_loss_usd st p1
      ∧ calc_unrealized_pnl p1 price ≤ -get_max_loss_usd st p1 then
    close_with p1 .max_loss
  else tick_tp_chain bv st price p1

/-- `_on_price_tick` for a single position: skip closed positions, apply the
V4 profit tracking update, then run the evaluation chain of `tick_core`. -/
def on_price_tick (bv : BotVersion) (st : Option Settings) (now price : ℚ)
    (pos : Position) : Position :=
  if pos.state = .closed then pos
  else tick_core bv st now price (calc_unrealized_pnl pos price)
    (v4_track bv pos (calc_unrealized_pnl pos price))

/-- The per-position body of `_dynamic_sl_adjust`, with the freshly fetched
5m ATR as a parameter.  The function returns immediately for V4. -/
def dynamic_sl_adjust_pos (bv : BotVersion) (pos : Position) (current_atr : ℚ) : Position :=
  if bv = .V4 then pos
  else if pos.state = .closed ∨ pos.tp1_hit = true then pos
  else if pos.entry_atr ≤ 0 ∨ pos.original_sl ≤ 0 then pos
  else
    let atr_ratio := if 0 < pos.entry_atr then current_atr / pos.entry_atr else 1
    if atr_ratio ≤ 3/2 then pos
    else
      let original_distance := |pos.entry_price - pos.original_sl|
      let new_distance := original_distance * min atr_ratio 2
      if pos.direction = .long then
        let new_sl := pyRound 8 (pos.entry_price - new_distance)
        if new_sl < pos.stop_loss then { pos with stop_loss := new_sl } else pos
      else
        let new_sl := pyRound 8 (pos.entry_price + new_distance)
        if pos.stop_loss < new_sl then { pos with stop_loss := new_sl } else pos

/-- `_backup_check`: the dynamic SL adjustment is invoked only when
`bot_version == "V4"` (line 329). -/
def backup_check_sl (bv : BotVersion) (pos : Position) (current_atr : ℚ) : Position :=
  if bv = .V4 then dynamic_sl_adjust_pos bv pos current_atr else pos

/-- The size invariant of the claims: nonnegative quantities, remaining
bounded by original, and both exact multiples of the 6-decimal rounding
quantum the monitor uses. -/
def QtyInv (pos : Position) : Prop :=
  0 ≤ pos.original_quantity ∧ Quantized 6 pos.original_quantity
  ∧ 0 ≤ pos.remaining_quantity ∧ pos.remaining_quantity ≤ pos.original_quantity
  ∧ Quantized 6 pos.remaining_quantity

/-- Between TP1 and TP2 the remaining quantity is the rounded
`original · (1 − tp1_close_pct/100)`. -/
def Tp1RemainInv (pos : Position) : Prop :=
  pos.tp1_hit = true ∧ pos.tp2_hit = false →
    pos.remaining_quantity = pyRound 6 (pos.original_quantity * (1 - pos.tp1_close_pct / 100))

/-- The close percentages a reachable position carries (mode config values
in [0, 100]), plus the V4 trailing-TP percentage when settings exist. -/
def PctOk (st : Option Settings) (pos : Position) : Prop :=
  0 ≤ pos.tp1_close_pct ∧ pos.tp1_close_pct ≤ 100
  ∧ 0 ≤ pos.tp3_close_pct ∧ pos.tp3_close_pct ≤ 100
  ∧ (match st with
      | some s => 0 ≤ s.trailing_tp3_close_pct ∧ s.trailing_tp3_close_pct ≤ 100
      | none => True)

/-- Scenario S4 of the spec: long, entry 100, stop 99, TP1/2/3 = 101/102/103,
original quantity 10, `tp1_close_pct` 40, V2 bot. -/
def s4_position : Position :=
  { direction := .long, entry_price := 100, stop_loss := 99, tp1 := 101, tp2 := 102,
    tp3 := 103, original_quantity := 10, remaining_quantity := 10, tp1_close_pct := 40 }

/-- Scenario S5 of the spec: V4 settings with taker 0.06 %,
`activation_fee_mult` 3.0, `giveback_pct` 50. -/
def s5_settings : Settings :=
  { taker_pct := 6/100, activation_fee_mult := 3, giveback_pct := 50 }

/-- Scenario S5 position: 200 $ position, tracked peak profit 1.50 $; with
remaining quantity 2 a price of 100.3 gives the 0.60 $ unrealized PnL of the
scenario. -/
def s5_position : Position :=
  { direction := .long, entry_price := 100, stop_loss := 99, tp1 := 101, tp2 := 102,
    tp3 := 103, original_quantity := 2, remaining_quantity := 2, position_size_usd := 200,
    margin_required := 100, max_profit_usd := 3/2 }

end CryptoSignals

open CryptoSignals

theorem rhe_intCast (n : ℤ) : rhe (n : ℚ) = n := by
  simp [rhe, Int.floor_intCast]

theorem rhe_le (x : ℚ) : (rhe x : ℚ) ≤ x + 1/2 := by
  unfold rhe
  have hfl := Int.floor_le x
  have hlt := Int.lt_floor_add_one x
  split_ifs <;> push_cast <;> linarith

theorem le_rhe (x : ℚ) : x - 1/2 ≤ (rhe x : ℚ) := by
  unfold rhe
  have hfl := Int.floor_le x
  have hlt := Int.lt_floor_add_one x
  split_ifs with h1 h2 <;> push_cast <;> linarith

theorem rhe_mono {x y : ℚ} (hxy : x ≤ y) : rhe x ≤ rhe y := by
  unfold rhe
  have hf : ⌊x⌋ ≤ ⌊y⌋ := Int.floor_le_floor hxy
  rcases lt_or_eq_of_le hf with hlt | heq
  · split_ifs <;> omega
  · rw [← heq]
    have hfr : x - (⌊x⌋ : ℚ) ≤ y - (⌊x⌋ : ℚ) := by linarith
    split_ifs <;> first | omega | linarith

theorem pyRound_mono (d : ℕ) {x y : ℚ} (h : x ≤ y) : pyRound d x ≤ pyRound d y := by
  unfold pyRound
  have hp : (0 : ℚ) < 10 ^ d := by positivity
  have h1 : rhe (x * 10 ^ d) ≤ rhe (y * 10 ^ d) :=
    rhe_mono (by nlinarith)
  have h2 : ((rhe (x * 10 ^ d) : ℚ)) ≤ (rhe (y * 10 ^ d) : ℚ) := by exact_mod_cast h1
  exact div_le_div_of_nonneg_right h2 hp.le

theorem pyRound_eq_self (d : ℕ) {x : ℚ} (h : Quantized d x) : pyRound d x = x := by
  obtain ⟨n, rfl⟩ := h
  have hp : (0 : ℚ) < 10 ^ d := by positivity
  have hx : (n : ℚ) / 10 ^ d * 10 ^ d = (n : ℚ) := by field_simp
  unfold pyRound
  rw [hx, rhe_intCast]

theorem pyRound_quantized (d : ℕ) (x : ℚ) : Quantized d (pyRound d x) :=
  ⟨rhe (x * 10 ^ d), rfl⟩

theorem pyRound_zero (d : ℕ) : pyRound d 0 = 0 := by
  have : Quantized d 0 := ⟨0, by simp⟩
  exact pyRound_eq_self d this

theorem pyRound_nonneg (d : ℕ) {x : ℚ} (h : 0 ≤ x) : 0 ≤ pyRound d x := by
  have := pyRound_mono d h
  rwa [pyRound_zero] at this

theorem ne_neg_one_of_nonneg {x : ℚ} (h : 0 ≤ x) : x ≠ -1 := by
  intro he; rw [he] at h; norm_num at h

theorem check_volatility_nonneg (t : Thresholds) (a m : ℚ) :
    0 ≤ check_volatility t a m := by
  simp only [check_volatility]
  split_ifs <;> norm_num

theorem check_volume_nonneg (t : Thresholds) (vc vm : ℚ) :
    0 ≤ check_volume t vc vm := by
  simp only [check_volume]
  split_ifs with h1 h2 h3
  · norm_num
  · norm_num
  · norm_num
  · refine le_min (by norm_num) (div_nonneg ?_ ?_) <;> push_neg at h2 h3 <;> linarith

theorem check_depth_nonneg (b a md : ℚ) (hmd : 0 < md) : 0 ≤ check_depth b a md := by
  simp only [check_depth]
  split_ifs with h1 h2 h3
  · norm_num
  · norm_num
  · norm_num
  · refine le_min (by norm_num) (div_nonneg ?_ ?_) <;> push_neg at h2 h3 <;> nlinarith

theorem check_oi_stability_nonneg (t : Thresholds) (oi : ℚ) :
    0 ≤ check_oi_stability t oi := by
  simp only [check_oi_stability]
  split_ifs <;> norm_num

theorem check_adx_trend_nonneg (a : Option ℚ) : 0 ≤ check_adx_trend a := by
  cases a
  · norm_num [check_adx_trend]
  · simp only [check_adx_trend]; split_ifs <;> norm_num

theorem check_order_flow_nonneg (b a : ℚ) : 0 ≤ check_order_flow b a := by
  simp only [check_order_flow]
  split_ifs <;> norm_num

theorem check_spread_nonneg_of (t : Thresholds) (s : ℚ) (mode : Mode)
    (h : ¬(t.spread_kill ≤ s ∧ s < 900)) : 0 ≤ check_spread t s mode := by
  simp only [check_spread]
  split_ifs with h1 h2
  · norm_num
  · exact absurd ⟨h2, by linarith⟩ h
  all_goals norm_num

theorem check_spread_eq_neg_one_iff (t : Thresholds) (s : ℚ) (mode : Mode) :
    check_spread t s mode = -1 ↔ t.spread_kill ≤ s ∧ s < 900 := by
  constructor
  · intro h
    by_contra hn
    have := check_spread_nonneg_of t s mode hn
    rw [h] at this; norm_num at this
  · rintro ⟨hk, h900⟩
    simp only [check_spread]
    rw [if_neg (by linarith), if_pos hk]

theorem check_funding_eq_neg_one_iff (t : Thresholds) (f : ℚ) :
    check_funding t f = -1 ↔ t.funding_kill ≤ |f| := by
  simp only [check_funding]
  split_ifs with h1 h2
  · exact ⟨fun _ => h1, fun _ => rfl⟩
  · constructor
    · intro h; norm_num at h
    · intro h; exact absurd h h1
  · constructor
    · intro h
      have habs : (0:ℚ) ≤ |f| := abs_nonneg f
      push_neg at h2
      have hmax : 0 < t.funding_max := lt_of_le_of_lt habs h2
      have : |f| / t.funding_max < 1 := (div_lt_one hmax).mpr h2
      linarith
    · intro h; exact absurd h h1

/-- C2 (amended): a tradeability check returns -1 exactly when
`spread_kill ≤ spread_pct < 900` (a spread of 900 or more is treated as
missing-orderbook and scored 0.7 instead) or `funding_kill ≤ |funding_rate|`;
whenever that holds, `evaluate_tradeability` returns `is_tradable = false`,
`score = 0` and a non-null `kill_reason`, and `analyze_pair` then returns a
`no_trade` record with reason NON-TRADABLE. -/
theorem tradeability_kill_switch
    (t : Thresholds) (w : TWeights) (min_score : ℚ)
    (atr_current atr_mean vol_current vol_mean spread_pct bid_depth ask_depth
     funding_rate oi_change_pct : ℚ) (mode : Mode) (adx_val : Option ℚ) :
    ((check_volatility t atr_current atr_mean = -1 ∨ check_volume t vol_current vol_mean = -1
      ∨ check_spread t spread_pct mode = -1 ∨ check_depth bid_depth ask_depth = -1
      ∨ check_funding t funding_rate = -1 ∨ check_oi_stability t oi_change_pct = -1
      ∨ check_adx_trend adx_val = -1 ∨ check_order_flow bid_depth ask_depth = -1)
      ↔ ((t.spread_kill ≤ spread_pct ∧ spread_pct < 900) ∨ t.funding_kill ≤ |funding_rate|))
    ∧ (((t.spread_kill ≤ spread_pct ∧ spread_pct < 900) ∨ t.funding_kill ≤ |funding_rate|) →
        (evaluate_tradeability t w min_score atr_current atr_mean vol_current vol_mean
          spread_pct bid_depth ask_depth funding_rate oi_change_pct mode adx_val).is_tradable = false
        ∧ (evaluate_tradeability t w min_score atr_current atr_mean vol_current vol_mean
          spread_pct bid_depth ask_depth funding_rate oi_change_pct mode adx_val).score = 0
        ∧ (evaluate_tradeability t w min_score atr_current atr_mean vol_current vol_mean
          spread_pct bid_depth ask_depth funding_rate oi_change_pct mode adx_val).kill_reason.isSome = true
        ∧ tradeability_gate (evaluate_tradeability t w min_score atr_current atr_mean vol_current
          vol_mean spread_pct bid_depth ask_depth funding_rate oi_change_pct mode adx_val)
          = some AnalyzeTag.NON_TRADABLE) := by
  have hV := ne_neg_one_of_nonneg (check_volatility_nonneg t atr_current atr_mean)
  have hVol := ne_neg_one_of_nonneg (check_volume_nonneg t vol_current vol_mean)
  have hD := ne_neg_one_of_nonneg (check_depth_nonneg bid_depth ask_depth 1000 (by norm_num))
  have hOI := ne_neg_one_of_nonneg (check_oi_stability_nonneg t oi_change_pct)
  have hADX := ne_neg_one_of_nonneg (check_adx_trend_nonneg adx_val)
  have hOF := ne_neg_one_of_nonneg (check_order_flow_nonneg bid_depth ask_depth)
  have hSp := check_spread_eq_neg_one_iff t spread_pct mode
  have hF := check_funding_eq_neg_one_iff t funding_rate
  constructor
  · constructor
    · rintro (h | h | h | h | h | h | h | h)
      · exact absurd h hV
      · exact absurd h hVol
      · exact Or.inl (hSp.mp h)
      · exact absurd h hD
      · exact Or.inr (hF.mp h)
      · exact absurd h hOI
      · exact absurd h hADX
      · exact absurd h hOF
    · rintro (h | h)
      · exact Or.inr (Or.inr (Or.inl (hSp.mpr h)))
      · exact Or.inr (Or.inr (Or.inr (Or.inr (Or.inl (hF.mpr h)))))
  · intro h
    simp only [evaluate_tradeability]
    rw [if_neg hV, if_neg hVol]
    by_cases hs : check_spread t spread_pct mode = -1
    · rw [if_pos hs]
      exact ⟨rfl, rfl, rfl, rfl⟩
    · have hf : check_funding t funding_rate = -1 := by
        rcases h with h | h
        · exact absurd (hSp.mpr h) hs
        · exact hF.mpr h
      rw [if_neg hs, if_neg hD, if_pos hf]
      exact ⟨rfl, rfl, rfl, rfl⟩

/-- C2 witness: the S1 kill scenario — `spread_pct = 0.5`, `spread_kill = 0.4`
kills the pair and `analyze_pair` answers NON-TRADABLE. -/
theorem tradeability_kill_switch_witness :
    (evaluate_tradeability ⟨1/2, 3, 1/2, 4/10, 15/100, 25/100, 15/100, 8/100, 15⟩
      ⟨2/10, 15/100, 15/100, 1/10, 1/10, 1/10, 2/10, none⟩ (6/10)
      1 1 1 1 (1/2) 2000 3000 0 0 Mode.scalping (some 30)).is_tradable = false
    ∧ (evaluate_tradeability ⟨1/2, 3, 1/2, 4/10, 15/100, 25/100, 15/100, 8/100, 15⟩
      ⟨2/10, 15/100, 15/100, 1/10, 1/10, 1/10, 2/10, none⟩ (6/10)
      1 1 1 1 (1/2) 2000 3000 0 0 Mode.scalping (some 30)).score = 0 := by
  have h := (tradeability_kill_switch ⟨1/2, 3, 1/2, 4/10, 15/100, 25/100, 15/100, 8/100, 15⟩
      ⟨2/10, 15/100, 15/100, 1/10, 1/10, 1/10, 2/10, none⟩ (6/10)
      1 1 1 1 (1/2) 2000 3000 0 0 Mode.scalping (some 30)).2
      (Or.inl ⟨by norm_num, by norm_num⟩)
  exact ⟨h.1, h.2.1⟩

/-- C2 counterexample to the frozen claim: with `spread_kill = 0.4` and the
missing-orderbook sentinel `spread_pct = 999` we have
`spread_pct ≥ spread_kill`, yet no check returns -1 (the spread check scores
0.7), so "-1 happens exactly when spread_pct ≥ spread_kill" is false. -/
theorem tradeability_kill_exactness_cex :
    (4/10 : ℚ) ≤ 999
    ∧ check_spread ⟨1/2, 3, 1/2, 4/10, 15/100, 25/100, 15/100, 8/100, 15⟩ 999 Mode.scalping = 7/10
    ∧ (evaluate_tradeability ⟨1/2, 3, 1/2, 4/10, 15/100, 25/100, 15/100, 8/100, 15⟩
      ⟨2/10, 15/100, 15/100, 1/10, 1/10, 1/10, 2/10, none⟩ (6/10)
      1 1 1 1 999 2000 3000 0 0 Mode.scalping (some 30)).kill_reason = none := by
  refine ⟨by norm_num, by norm_num [check_spread], ?_⟩
  simp only [evaluate_tradeability]
  rw [if_neg (ne_neg_one_of_nonneg (check_volatility_nonneg _ _ _)),
    if_neg (ne_neg_one_of_nonneg (check_volume_nonneg _ _ _)),
    if_neg (by rw [check_spread_eq_neg_one_iff]; norm_num),
    if_neg (ne_neg_one_of_nonneg (check_depth_nonneg _ _ _ (by norm_num))),
    if_neg (by rw [check_funding_eq_neg_one_iff]; norm_num),
    if_neg (ne_neg_one_of_nonneg (check_oi_stability_nonneg _ _)),
    if_neg (ne_neg_one_of_nonneg (check_adx_trend_nonneg _)),
    if_neg (by simp)]

/-- C1: every emitted signal has `min_score ≤ score ≤ 100`, and for V4 the
pre-modifier base score (clamped to [0,100], before the MTF, VWAP and
learning modifiers) already satisfies `base_score ≥ min_score`. -/
theorem signal_score_gate (is_v4 : Bool) (mode : Mode) (cfgW : ScoringWeights)
    (tradeability_score : ℚ) (direction_score : ℤ)
    (pattern_score vol_score rr_score confluence_score candle_modifier regime_mod : ℤ)
    (sentiment_score mtf_confluence vwap_val last_close : ℚ)
    (learning_modifier : ℤ) (direction : Dir) (min_score : ℚ) (s : ℤ)
    (hsig : analyze_scoring is_v4 mode cfgW tradeability_score direction_score pattern_score
      vol_score rr_score confluence_score candle_modifier regime_mod sentiment_score
      mtf_confluence vwap_val last_close learning_modifier direction min_score
      = SignalOutcome.signal s) :
    min_score ≤ (s : ℚ) ∧ s ≤ 100
    ∧ (is_v4 = true → min_score ≤ ((analyze_base_score is_v4 mode cfgW tradeability_score
        direction_score pattern_score vol_score rr_score confluence_score candle_modifier
        regime_mod sentiment_score direction : ℤ) : ℚ)) := by
  cases is_v4
  · simp only [analyze_scoring, final_scoring_gate, analyze_base_score, Bool.false_eq_true,
      false_and, if_false, ite_false] at hsig ⊢
    split_ifs at hsig with hlt
    have hfs := SignalOutcome.signal.inj hsig
    subst hfs
    push_neg at hlt
    exact ⟨hlt, by omega, fun hfalse => absurd hfalse (by simp)⟩
  · simp only [analyze_scoring, final_scoring_gate, analyze_base_score, eq_self_iff_true,
      true_and, if_true, ite_true] at hsig ⊢
    split_ifs at hsig with h1 h2
    have hfs := SignalOutcome.signal.inj hsig
    subst hfs
    push_neg at h1 h2
    exact ⟨h2, by omega, fun _ => h1⟩

/-- C1 witness: a concrete non-V4 evaluation emitting a signal with score 85
under `min_score = 70`. -/
theorem signal_score_gate_witness :
    analyze_scoring false Mode.scalping ⟨3/10, 25/100, 25/100, 2/10⟩ 1 100 30 20 25 5 0 0
      0 0 0 0 0 Dir.long 70 = SignalOutcome.signal 85
    ∧ (70 : ℚ) ≤ ((85 : ℤ) : ℚ) ∧ (85 : ℤ) ≤ 100 := by
  have heval : analyze_scoring false Mode.scalping ⟨3/10, 25/100, 25/100, 2/10⟩ 1 100 30 20 25 5 0 0
      0 0 0 0 0 Dir.long 70 = SignalOutcome.signal 85 := by
    norm_num [analyze_scoring, setup_score_calc, sentiment_normalized, select_weights,
      final_pre_score, pyInt, final_scoring_gate]
  have h := signal_score_gate false Mode.scalping ⟨3/10, 25/100, 25/100, 2/10⟩ 1 100 30 20 25 5 0 0
      0 0 0 0 0 Dir.long 70 85 heval
  exact ⟨heval, h.1, h.2.1⟩

/-- C7 (amended): candle confirmation rejects exactly when a big
opposite-color candle straddles the price; otherwise it confirms with a
score modifier in [-40, +8] (the individual penalties -10, -15, -5 and -10
can stack, so the bound is -40, not the -15 the spec states). -/
theorem candle_confirmation_spec (direction : Dir) (ctx : CandleCtx)
    (engulfing doji hammer shooting_star : Pat) (lastCandle : Option Candle) :
    ((candle_confirmation direction ctx engulfing doji hammer shooting_star lastCandle).confirmed
        = false
      ↔ ((direction = .long ∧ ctx.big_candle_resistance = true)
          ∨ (direction = .short ∧ ctx.big_candle_support = true)))
    ∧ ((candle_confirmation direction ctx engulfing doji hammer shooting_star lastCandle).confirmed
        = true →
      -40 ≤ (candle_confirmation direction ctx engulfing doji hammer shooting_star
          lastCandle).score_modifier
      ∧ (candle_confirmation direction ctx engulfing doji hammer shooting_star
          lastCandle).score_modifier ≤ 8) := by
  by_cases hA : direction = Dir.long ∧ ctx.big_candle_resistance = true
  · simp only [candle_confirmation, if_pos hA]
    exact ⟨by simpa using Or.inl hA, by simp⟩
  · by_cases hB : direction = Dir.short ∧ ctx.big_candle_support = true
    · simp only [candle_confirmation, if_neg hA, if_pos hB]
      exact ⟨by simpa using Or.inr hB, by simp⟩
    · simp only [candle_confirmation, if_neg hA, if_neg hB]
      refine ⟨by simpa using not_or.mpr ⟨hA, hB⟩, fun _ => ?_⟩
      cases direction
      · simp only [show (Dir.long = Dir.short) = False by simp,
          show (Dir.long = Dir.long) = True by simp, false_and, true_and, if_false, if_true]
        split_ifs <;> omega
      · simp only [show (Dir.short = Dir.long) = False by simp,
          show (Dir.short = Dir.short) = True by simp, false_and, true_and, if_false, if_true]
        split_ifs <;> omega

/-- C7 witness: neutral context confirms with modifier 0. -/
theorem candle_confirmation_spec_witness :
    (candle_confirmation Dir.long ⟨false, false, Pat.neutral, 0⟩ Pat.nonePat Pat.nonePat
      Pat.nonePat Pat.nonePat none).confirmed = true
    ∧ -40 ≤ (candle_confirmation Dir.long ⟨false, false, Pat.neutral, 0⟩ Pat.nonePat Pat.nonePat
      Pat.nonePat Pat.nonePat none).score_modifier
    ∧ (candle_confirmation Dir.long ⟨false, false, Pat.neutral, 0⟩ Pat.nonePat Pat.nonePat
      Pat.nonePat Pat.nonePat none).score_modifier ≤ 8 := by
  have hc : (candle_confirmation Dir.long ⟨false, false, Pat.neutral, 0⟩ Pat.nonePat Pat.nonePat
      Pat.nonePat Pat.nonePat none).confirmed = true := by
    norm_num [candle_confirmation]
  have h := (candle_confirmation_spec Dir.long ⟨false, false, Pat.neutral, 0⟩ Pat.nonePat
      Pat.nonePat Pat.nonePat Pat.nonePat none).2 hc
  exact ⟨hc, h.1, h.2⟩

/-- C7 counterexample to the frozen claim: with a strongly bearish last
candle, a bearish shooting star, a doji and three consecutive bearish
candles against a long entry, the modifier is -40 < -15 while the entry is
still confirmed — the claimed range [-15, +8] is violated. -/
theorem candle_modifier_range_cex :
    (candle_confirmation Dir.long ⟨false, false, Pat.bearish, 3⟩ Pat.nonePat Pat.bullish
      Pat.nonePat Pat.bearish (some ⟨100, 101, 84, 85⟩)).confirmed = true
    ∧ (candle_confirmation Dir.long ⟨false, false, Pat.bearish, 3⟩ Pat.nonePat Pat.bullish
      Pat.nonePat Pat.bearish (some ⟨100, 101, 84, 85⟩)).score_modifier = -40
    ∧ ((-40 : ℤ) < -15) := by
  refine ⟨?_, ?_, by norm_num⟩
  · norm_num [candle_confirmation]
  · norm_num [candle_confirmation]
    simp

/-- C10: the total-PnL computation used at close equals the unrealized-PnL
computation evaluated at the exit price (`tp3` for a TP3 close, the stop
otherwise): both sum the same realized TP1/TP2 legs plus price difference
times remaining quantity. -/
theorem total_pnl_refines_unrealized (pos : Position) (r : CloseReason) :
    calculate_total_pnl pos r
      = calc_unrealized_pnl pos (if r = .tp3 then pos.tp3 else pos.stop_loss) := by
  simp only [calculate_total_pnl, calc_unrealized_pnl]

/-- C9: the periodic backup loop never changes any stop loss — it invokes
the dynamic SL adjustment only for V4 (line 329), where the function
returns immediately (line 355) — so the V3 widening of the claim is dead
code.  At the claim's own inputs (V3, entry 100, original SL 99, entry ATR
1, fresh ATR 1.6, ratio 1.6 > 1.5) the stop stays 99 whereas the claimed
widening would move it to `100 - 1·min(1.6, 2) = 98.4`. -/
theorem dynamic_sl_widening_dead :
    (∀ (bv : BotVersion) (pos : Position) (current_atr : ℚ),
      backup_check_sl bv pos current_atr = pos)
    ∧ (backup_check_sl BotVersion.V3
        { direction := .long, entry_price := 100, stop_loss := 99, tp1 := 101, tp2 := 102,
          tp3 := 103, original_quantity := 10, remaining_quantity := 10,
          entry_atr := 1, original_sl := 99 } (16/10)).stop_loss = 99
    ∧ (100 : ℚ) - |(100 : ℚ) - 99| * min ((16/10 : ℚ) / 1) 2 = 984/10 := by
  have hall : ∀ (bv : BotVersion) (pos : Position) (current_atr : ℚ),
      backup_check_sl bv pos current_atr = pos := by
    intro bv pos current_atr
    by_cases h : bv = BotVersion.V4
    · subst h
      simp [backup_check_sl, dynamic_sl_adjust_pos]
    · simp [backup_check_sl, h]
  refine ⟨hall, ?_, by norm_num⟩
  rw [hall]

/-- C6 (amended): for a V4 close with a positive taker fee, the journaled
`pnl_usd` is the round-trip-fee-deducted PnL, and the `pnl_usd` handed to
`AdaptiveLearner.record_trade_context` is that same net figure (the
deduction happens before the context is built), not the pre-fee PnL. -/
theorem close_and_journal_fee_accounting (s : Settings) (pos : Position)
    (r : CloseReason) (exit_price pnl0 : ℚ) (htaker : 0 < s.taker_pct) :
    (close_and_journal .V4 (some s) pos r exit_price pnl0).journal_pnl
      = pyRound 4 (pnl0 - pos.position_size_usd * (s.taker_pct / 100) * 2)
    ∧ (close_and_journal .V4 (some s) pos r exit_price pnl0).ctx_pnl
      = some ((close_and_journal .V4 (some s) pos r exit_price pnl0).journal_pnl) := by
  constructor
  · simp only [close_and_journal]
    split_ifs with hcond
    · rfl
    · exact absurd htaker (by simpa using hcond)
  · simp only [close_and_journal]
    split_ifs <;> rfl

/-- C6 witness: position size 200 $, taker 0.06 %, gross PnL 0.60 $ — the
journaled PnL and the learner-context PnL are both 0.36 $. -/
theorem close_and_journal_fee_accounting_witness :
    (close_and_journal .V4 (some s5_settings) s5_position CloseReason.profit_giveback
      100 (6/10)).journal_pnl = 36/100
    ∧ (close_and_journal .V4 (some s5_settings) s5_position CloseReason.profit_giveback
      100 (6/10)).ctx_pnl = some (36/100) := by
  have h := close_and_journal_fee_accounting s5_settings s5_position
    CloseReason.profit_giveback 100 (6/10) (by norm_num [s5_settings])
  have hval : pyRound 4 ((6:ℚ)/10 - s5_position.position_size_usd
      * (s5_settings.taker_pct / 100) * 2) = 36/100 := by
    norm_num [s5_position, s5_settings, pyRound, rhe]
  exact ⟨h.1.trans hval, h.2.trans (by rw [h.1, hval])⟩

/-- C6 counterexample to the frozen claim: the learner context receives
0.36 $ (net of fees), not the pre-deduction 0.60 $ the claim asserts. -/
theorem learner_pnl_gross_cex :
    (close_and_journal .V4 (some s5_settings) s5_position CloseReason.profit_giveback
      100 (6/10)).ctx_pnl = some (36/100)
    ∧ (some ((36:ℚ)/100) ≠ some ((6:ℚ)/10)) := by
  constructor
  · norm_num [close_and_journal, s5_settings, s5_position, pyRound, rhe]
  · simp; norm_num

/-- C5: for a V4 position with a positive tracked peak, the profit-giveback
check fires exactly when the peak reached `activation_fee_mult ·
round_trip_fees`, the giveback ratio reached `giveback_pct`, and the
remaining net profit is positive; the giveback close handler closes the
position with `close_reason = profit_giveback`. -/
theorem profit_giveback_fires_iff (s : Settings) (pos : Position) (current_pnl : ℚ)
    (hpk : 0 < pos.max_profit_usd) :
    (check_profit_giveback .V4 (some s) pos current_pnl = true
      ↔ (get_rt_fees (some s) pos * s.activation_fee_mult ≤ pos.max_profit_usd
          ∧ s.giveback_pct ≤ (pos.max_profit_usd - current_pnl) / pos.max_profit_usd * 100
          ∧ 0 < current_pnl - get_rt_fees (some s) pos))
    ∧ (close_with pos CloseReason.profit_giveback).close_reason
        = some CloseReason.profit_giveback
    ∧ (close_with pos CloseReason.profit_giveback).state = PState.closed := by
  refine ⟨?_, rfl, rfl⟩
  simp only [check_profit_giveback]
  rw [if_neg (by simp), if_pos hpk]
  split_ifs with h1 h2
  · constructor
    · intro h; exact absurd h (by simp)
    · rintro ⟨hc, -, -⟩; exact absurd h1 (not_lt.mpr hc)
  · constructor
    · intro h; exact absurd h (by simp)
    · rintro ⟨-, hc, -⟩; exact absurd h2 (not_lt.mpr hc)
  · push_neg at h1 h2
    simp only [decide_eq_true_eq]
    exact ⟨fun h => ⟨h1, h2, h⟩, fun h => h.2.2⟩

/-- C5 witness: the literal S5 case — peak 1.50 $, current PnL 0.60 $,
fees 0.24 $, activation 3.0, giveback 50 % — the check fires and the price
tick closes the position with reason profit_giveback. -/
theorem profit_giveback_fires_iff_witness :
    check_profit_giveback .V4 (some s5_settings) s5_position (6/10) = true
    ∧ (on_price_tick .V4 (some s5_settings) 0 (1003/10) s5_position).close_reason
        = some CloseReason.profit_giveback
    ∧ (on_price_tick .V4 (some s5_settings) 0 (1003/10) s5_position).state
        = PState.closed := by
  have h := (profit_giveback_fires_iff s5_settings s5_position (6/10)
    (by norm_num [s5_position])).1
  have hcheck : check_profit_giveback .V4 (some s5_settings) s5_position (6/10) = true :=
    h.mpr ⟨by norm_num [get_rt_fees, s5_settings, s5_position],
      by norm_num [s5_position, s5_settings],
      by norm_num [get_rt_fees, s5_settings, s5_position]⟩
  refine ⟨hcheck, ?_, ?_⟩ <;>
    · norm_num [on_price_tick, tick_core, tick_tp_chain, v4_track, calc_unrealized_pnl, check_quick_exit,
        check_stale_position, getModeCfg, check_profit_giveback, get_rt_fees, close_with,
        s5_settings, s5_position]
      rfl

/-- C3: the TP1 transition sets `remaining = round(original·(1 −
tp1_close_pct/100), 6)`, `tp1_hit = 1`, `state = breakeven`, and moves the
stop to the fee-adjusted breakeven — the entry price for V1–V3, and
`entry ± (position_size_usd · taker_pct/100 · 2) / remaining_quantity`
(rounded to 8 decimals) for a V4 bot with a positive fee and quantity. -/
theorem tp1_transition_spec (bv : BotVersion) (st : Option Settings) (pos : Position)
    (h : pos.tp1_hit = false) :
    (handle_tp1_hit bv st pos).remaining_quantity
      = pyRound 6 (pos.original_quantity * (1 - pos.tp1_close_pct / 100))
    ∧ (handle_tp1_hit bv st pos).tp1_hit = true
    ∧ (handle_tp1_hit bv st pos).state = PState.breakeven
    ∧ (handle_tp1_hit bv st pos).stop_loss = fee_adjusted_breakeven bv st pos
    ∧ (bv ≠ .V4 → (handle_tp1_hit bv st pos).stop_loss = pos.entry_price)
    ∧ (∀ s, st = some s → bv = .V4 → 0 < s.taker_pct → 0 < pos.remaining_quantity →
        (handle_tp1_hit bv st pos).stop_loss
          = (if pos.direction = .long then
              pyRound 8 (pos.entry_price
                + pos.position_size_usd * (s.taker_pct / 100) * 2 / pos.remaining_quantity)
             else pyRound 8 (pos.entry_price
                - pos.position_size_usd * (s.taker_pct / 100) * 2 / pos.remaining_quantity))) := by
  refine ⟨rfl, rfl, rfl, rfl, ?_, ?_⟩
  · intro hbv
    show fee_adjusted_breakeven bv st pos = pos.entry_price
    cases st with
    | none => rfl
    | some s =>
      simp only [fee_adjusted_breakeven]
      rw [if_pos hbv]
  · intro s hst hbv ht hrem
    subst hst
    subst hbv
    show fee_adjusted_breakeven .V4 (some s) pos = _
    simp only [fee_adjusted_breakeven]
    rw [if_neg (by simp), if_neg (not_le.mpr ht),
      if_neg (ne_of_gt hrem), if_neg (not_le.mpr hrem)]

/-- C3 witness: the literal S4 case — V2 bot, tick price 101.00 on the S4
position gives remaining 6.0, stop 100 (entry for V2), state breakeven,
`tp1_hit = 1`. -/
theorem tp1_transition_spec_witness :
    (handle_tp1_hit BotVersion.V2 none s4_position).remaining_quantity = 6
    ∧ (handle_tp1_hit BotVersion.V2 none s4_position).stop_loss = 100
    ∧ (on_price_tick BotVersion.V2 none 0 101 s4_position).remaining_quantity = 6
    ∧ (on_price_tick BotVersion.V2 none 0 101 s4_position).stop_loss = 100
    ∧ (on_price_tick BotVersion.V2 none 0 101 s4_position).state = PState.breakeven
    ∧ (on_price_tick BotVersion.V2 none 0 101 s4_position).tp1_hit = true := by
  have h := tp1_transition_spec BotVersion.V2 none s4_position rfl
  have h6 : pyRound 6 (s4_position.original_quantity
      * (1 - s4_position.tp1_close_pct / 100)) = 6 := by
    norm_num [s4_position, pyRound, rhe]
  have hbe : (handle_tp1_hit BotVersion.V2 none s4_position).stop_loss = 100 :=
    (h.2.2.2.2.1 (by decide)).trans (by norm_num [s4_position])
  refine ⟨h.1.trans h6, hbe, ?_, ?_, ?_, ?_⟩ <;>
    norm_num [on_price_tick, tick_core, tick_tp_chain, v4_track, calc_unrealized_pnl, get_min_profit_usd,
      get_max_loss_usd, getModeCfg, early_profit_protection, early_be_step,
      early_trail_step, fee_adjusted_breakeven,
      handle_tp1_hit, handle_sl_hit, close_with, check_quick_exit, check_stale_position,
      check_profit_giveback, s4_position, pyRound, rhe,
      show (PState.active = PState.closed) = False by simp,
      show (BotVersion.V2 = BotVersion.V4) = False by simp]

theorem v4_track_shape (bv : BotVersion) (pos : Position) (c : ℚ) :
    ∃ mp md, v4_track bv pos c
      = { pos with max_profit_usd := mp, max_drawdown_usd := md } := by
  simp only [v4_track]
  split_ifs <;> exact ⟨_, _, rfl⟩

theorem early_be_step_shape (progress be_trigger be_price : ℚ) (pos : Position) :
    ∃ sl stt, early_be_step progress be_trigger be_price pos
      = { pos with stop_loss := sl, state := stt } := by
  simp only [early_be_step]
  split_ifs <;> exact ⟨_, _, rfl⟩

theorem early_trail_step_shape (progress trail_trigger trail_behind entry_price
    tp1_distance : ℚ) (q : Position) :
    ∃ sl, early_trail_step progress trail_trigger trail_behind entry_price tp1_distance q
      = { q with stop_loss := sl } := by
  simp only [early_trail_step]
  split_ifs <;> exact ⟨_, rfl⟩

theorem early_profit_protection_shape (bv : BotVersion) (st : Option Settings)
    (pos : Position) (price : ℚ) :
    ∃ sl stt, early_profit_protection bv st pos price
      = { pos with stop_loss := sl, state := stt } := by
  simp only [early_profit_protection]
  set prog := (if pos.direction = Dir.long
      then (price - pos.entry_price) / |pos.tp1 - pos.entry_price|
      else (pos.entry_price - price) / |pos.tp1 - pos.entry_price|) with hprog
  split_ifs
  · exact ⟨_, _, rfl⟩
  · exact ⟨_, _, rfl⟩
  · obtain ⟨s1, t1, h1⟩ := early_be_step_shape prog
      ((getModeCfg st pos.mode).breakeven_at_pct / 100)
      (fee_adjusted_breakeven bv st pos) pos
    rw [h1]
    obtain ⟨s2, h2⟩ := early_trail_step_shape prog
      ((getModeCfg st pos.mode).trail_activation_pct / 100)
      ((getModeCfg st pos.mode).trail_behind_pct / 100)
      pos.entry_price (|pos.tp1 - pos.entry_price|)
      { pos with stop_loss := s1, state := t1 }
    rw [h2]
    exact ⟨s2, t1, rfl⟩

/-- C8 (amended): the stale-timeout close is evaluated only in the V4
preflight.  For a V4 bot it fires exactly when `max_hold_seconds > 0`,
`entry_time` is known, `now - entry_time ≥ max_hold_seconds` and the
unrealised PnL is negative; for V1–V3 bots a price tick never closes a
position with reason stale_timeout (the PnL < $0.05 branch of
`_check_stale_position` is unreachable from the tick path). -/
theorem stale_timeout_spec (st : Option Settings) (pos : Position) (now current_pnl : ℚ) :
    (check_stale_position BotVersion.V4 st pos now current_pnl = true
      ↔ (0 < (getModeCfg st pos.mode).max_hold_seconds
          ∧ ∃ t, pos.entry_time = some t
            ∧ (getModeCfg st pos.mode).max_hold_seconds ≤ now - t
            ∧ current_pnl < 0))
    ∧ (∀ (bv : BotVersion) (price : ℚ), bv ≠ BotVersion.V4 →
        (on_price_tick bv st now price pos).close_reason = some CloseReason.stale_timeout →
        pos.close_reason = some CloseReason.stale_timeout) := by
  constructor
  · cases hent : pos.entry_time with
    | none =>
      simp only [check_stale_position, hent]
      split_ifs <;> simp
    | some t =>
      simp only [check_stale_position, hent]
      split_ifs with h1 h2
      · constructor
        · intro hx; simp at hx
        · rintro ⟨hc, -⟩; linarith
      · constructor
        · intro hx; simp at hx
        · rintro ⟨-, t2, ht2, hle, -⟩
          have : t2 = t := by injection ht2.symm
          subst this; linarith
      · push_neg at h1 h2
        simp only [decide_eq_true_eq]
        constructor
        · intro hx; exact ⟨h1, t, rfl, h2, hx⟩
        · rintro ⟨-, t2, ht2, -, hx⟩; exact hx
  · intro bv price hbv htick
    by_cases hclosed : pos.state = PState.closed
    · rw [on_price_tick, if_pos hclosed] at htick
      exact htick
    · have htr : v4_track bv pos (calc_unrealized_pnl pos price) = pos := by
        simp [v4_track, hbv]
      obtain ⟨sl, stt, hp2⟩ := early_profit_protection_shape bv st pos price
      simp only [on_price_tick, tick_core, tick_tp_chain, if_neg hclosed, htr, eq_false hbv, false_and, if_false,
        hp2, handle_tp1_hit, handle_tp2_hit, handle_tp3_hit, handle_sl_hit,
        close_with] at htick
      split_ifs at htick <;> simp_all

/-- C8 witness: a V4 position held 120 s against `max_hold_seconds = 60`
with PnL −5 $ fires the stale check, and the price tick closes it with
reason stale_timeout. -/
theorem stale_timeout_spec_witness :
    check_stale_position BotVersion.V4 (some { scalping_cfg := { max_hold_seconds := 60 } })
      { s4_position with entry_time := some 0 } 120 (-5) = true
    ∧ (on_price_tick BotVersion.V4 (some { scalping_cfg := { max_hold_seconds := 60 } })
        120 (995/10) { s4_position with entry_time := some 0 }).close_reason
      = some CloseReason.stale_timeout
    ∧ (on_price_tick BotVersion.V4 (some { scalping_cfg := { max_hold_seconds := 60 } })
        120 (995/10) { s4_position with entry_time := some 0 }).state = PState.closed := by
  have h := (stale_timeout_spec (some { scalping_cfg := { max_hold_seconds := 60 } })
    { s4_position with entry_time := some 0 } 120 (-5)).1
  have hcheck := h.mpr ⟨by norm_num [getModeCfg, s4_position], 0,
    by simp [s4_position], by norm_num [getModeCfg, s4_position], by norm_num⟩
  refine ⟨hcheck, ?_, ?_⟩ <;>
    norm_num [on_price_tick, tick_core, tick_tp_chain, v4_track, calc_unrealized_pnl, check_quick_exit,
      check_stale_position, check_profit_giveback, get_rt_fees, getModeCfg, close_with,
      s4_position, show (PState.active = PState.closed) = False by simp]

/-- C8 counterexample to the frozen claim: a V1 position held past its
`max_hold_seconds` with stagnant PnL 0 < $0.05 is NOT closed by the tick —
the position stays active with no close reason. -/
theorem stale_timeout_v1_cex :
    (60 : ℚ) ≤ 120 - 0
    ∧ calc_unrealized_pnl { s4_position with entry_time := some 0 } 100 = 0
    ∧ (0 : ℚ) < 5/100
    ∧ (on_price_tick BotVersion.V1 (some { scalping_cfg := { max_hold_seconds := 60 } })
        120 100 { s4_position with entry_time := some 0 }).close_reason = none
    ∧ (on_price_tick BotVersion.V1 (some { scalping_cfg := { max_hold_seconds := 60 } })
        120 100 { s4_position with entry_time := some 0 }).state = PState.active := by
  refine ⟨by norm_num, by norm_num [calc_unrealized_pnl, s4_position], by norm_num, ?_, ?_⟩ <;>
    norm_num [on_price_tick, tick_core, tick_tp_chain, v4_track, calc_unrealized_pnl, get_min_profit_usd,
      get_max_loss_usd, getModeCfg, early_profit_protection, early_be_step, early_trail_step,
      fee_adjusted_breakeven, handle_tp1_hit, handle_sl_hit, close_with, s4_position,
      show (PState.active = PState.closed) = False by simp,
      show (BotVersion.V1 = BotVersion.V4) = False by simp]

theorem handle_tp1_hit_inv (bv : BotVersion) (st : Option Settings) (pos : Position)
    (hq : QtyInv pos) (ha : 0 ≤ pos.tp1_close_pct) (hb : pos.tp1_close_pct ≤ 100) :
    QtyInv (handle_tp1_hit bv st pos) ∧ Tp1RemainInv (handle_tp1_hit bv st pos) := by
  obtain ⟨ho0, hoq, -, -, -⟩ := hq
  have hx0 : 0 ≤ pos.original_quantity * (1 - pos.tp1_close_pct / 100) :=
    mul_nonneg ho0 (by linarith)
  have hx1 : pos.original_quantity * (1 - pos.tp1_close_pct / 100)
      ≤ pos.original_quantity := by nlinarith
  exact ⟨⟨ho0, hoq, pyRound_nonneg 6 hx0,
    (pyRound_mono 6 hx1).trans_eq (pyRound_eq_self 6 hoq), pyRound_quantized 6 _⟩,
    fun _ => rfl⟩

theorem handle_tp2_hit_inv (pos : Position) (hq : QtyInv pos)
    (ha : 0 ≤ pos.tp3_close_pct) (hb : pos.tp3_close_pct ≤ 100) :
    QtyInv (handle_tp2_hit pos) ∧ Tp1RemainInv (handle_tp2_hit pos) := by
  obtain ⟨ho0, hoq, -, -, -⟩ := hq
  have hx0 : 0 ≤ pos.original_quantity * (pos.tp3_close_pct / 100) :=
    mul_nonneg ho0 (by linarith)
  have hx1 : pos.original_quantity * (pos.tp3_close_pct / 100)
      ≤ pos.original_quantity := by nlinarith
  refine ⟨⟨ho0, hoq, pyRound_nonneg 6 hx0,
    (pyRound_mono 6 hx1).trans_eq (pyRound_eq_self 6 hoq), pyRound_quantized 6 _⟩, ?_⟩
  rintro ⟨-, h2⟩
  simp [handle_tp2_hit] at h2

theorem handle_tp3_hit_inv (bv : BotVersion) (st : Option Settings) (pos : Position)
    (hq : QtyInv pos)
    (hpct : match st with
      | some s => 0 ≤ s.trailing_tp3_close_pct ∧ s.trailing_tp3_close_pct ≤ 100
      | none => True)
    (h2 : pos.tp2_hit = true) :
    QtyInv (handle_tp3_hit bv st pos) ∧ Tp1RemainInv (handle_tp3_hit bv st pos) := by
  obtain ⟨ho0, hoq, hr0, hro, hrq⟩ := hq
  have htp2 : (handle_tp3_hit bv st pos).tp2_hit = true := by
    simp only [handle_tp3_hit]
    split_ifs <;> exact h2
  have htp1 : Tp1RemainInv (handle_tp3_hit bv st pos) := by
    rintro ⟨-, hh⟩
    exact absurd (htp2.symm.trans hh) (by simp)
  refine ⟨?_, htp1⟩
  cases st with
  | none =>
    simp only [handle_tp3_hit]
    rw [if_neg (by simp)]
    exact ⟨ho0, hoq, hr0, hro, hrq⟩
  | some s =>
    obtain ⟨hsa, hsb⟩ := hpct
    have hc0 : 0 ≤ pos.remaining_quantity * s.trailing_tp3_close_pct / 100 :=
      div_nonneg (mul_nonneg hr0 hsa) (by norm_num)
    have hc1 : pos.remaining_quantity * s.trailing_tp3_close_pct / 100
        ≤ pos.remaining_quantity := by nlinarith
    have hcl_le : pyRound 6 (pos.remaining_quantity * s.trailing_tp3_close_pct / 100)
        ≤ pos.remaining_quantity :=
      (pyRound_mono 6 hc1).trans_eq (pyRound_eq_self 6 hrq)
    have hcl_0 : 0 ≤ pyRound 6 (pos.remaining_quantity * s.trailing_tp3_close_pct / 100) :=
      pyRound_nonneg 6 hc0
    simp only [handle_tp3_hit]
    split_ifs <;>
      first
        | exact ⟨ho0, hoq, hr0, hro, hrq⟩
        | exact ⟨ho0, hoq, pyRound_nonneg 6 (by linarith),
            ((pyRound_mono 6 (by linarith)).trans_eq (pyRound_eq_self 6 hrq)).trans hro,
            pyRound_quantized 6 _⟩

/-- The quantity invariants are preserved by the TP/SL tail of the tick. -/
theorem tick_tp_chain_qty (bv : BotVersion) (st : Option Settings)
    (price : ℚ) (p1 : Position) (hq : QtyInv p1) (hp : PctOk st p1)
    (ht : Tp1RemainInv p1) :
    QtyInv (tick_tp_chain bv st price p1)
    ∧ Tp1RemainInv (tick_tp_chain bv st price p1) := by
  obtain ⟨hp1a, hp1b, hp3a, hp3b, hpt⟩ := hp
  obtain ⟨sl, stt, hep⟩ := early_profit_protection_shape bv st p1 price
  rw [tick_tp_chain, hep]
  have hqP2 : QtyInv { p1 with stop_loss := sl, state := stt } := hq
  have htP2 : Tp1RemainInv { p1 with stop_loss := sl, state := stt } := ht
  by_cases h1 : p1.tp1_hit = false
  · rw [if_pos h1]
    by_cases h2 : (if ({ p1 with stop_loss := sl, state := stt } : Position).direction = Dir.long
        then ({ p1 with stop_loss := sl, state := stt } : Position).tp1 ≤ price
        else price ≤ ({ p1 with stop_loss := sl, state := stt } : Position).tp1)
    · rw [if_pos h2]
      exact handle_tp1_hit_inv bv st _ hqP2 hp1a hp1b
    · rw [if_neg h2]
      by_cases h3 : (if ({ p1 with stop_loss := sl, state := stt } : Position).direction = Dir.long
          then price ≤ ({ p1 with stop_loss := sl, state := stt } : Position).stop_loss
          else ({ p1 with stop_loss := sl, state := stt } : Position).stop_loss ≤ price)
      · rw [if_pos h3]
        exact ⟨hqP2, htP2⟩
      · rw [if_neg h3]
        exact ⟨hqP2, htP2⟩
  · rw [if_neg h1]
    by_cases h4 : p1.tp2_hit = false
    · rw [if_pos h4]
      by_cases h5 : (if p1.direction = Dir.long then p1.tp2 ≤ price else price ≤ p1.tp2)
      · rw [if_pos h5]
        exact handle_tp2_hit_inv p1 hq hp3a hp3b
      · rw [if_neg h5]
        by_cases h6 : (if p1.direction = Dir.long then price ≤ p1.stop_loss
            else p1.stop_loss ≤ price)
        · rw [if_pos h6]
          exact ⟨hq, ht⟩
        · rw [if_neg h6]
          exact ⟨hq, ht⟩
    · rw [if_neg h4]
      have h2t : p1.tp2_hit = true := by simpa using h4
      by_cases h7 : (if p1.direction = Dir.long then p1.tp3 ≤ price else price ≤ p1.tp3)
      · rw [if_pos h7]
        exact handle_tp3_hit_inv bv st p1 hq hpt h2t
      · rw [if_neg h7]
        by_cases h8 : (if p1.direction = Dir.long then price ≤ p1.stop_loss
            else p1.stop_loss ≤ price)
        · rw [if_pos h8]
          exact ⟨hq, ht⟩
        · rw [if_neg h8]
          exact ⟨hq, ht⟩

/-- The quantity invariants are preserved by the post-tracking evaluation
chain `tick_core`. -/
theorem tick_core_qty (bv : BotVersion) (st : Option Settings)
    (now price pnl_track : ℚ) (p1 : Position) (hq : QtyInv p1) (hp : PctOk st p1)
    (ht : Tp1RemainInv p1) :
    QtyInv (tick_core bv st now price pnl_track p1)
    ∧ Tp1RemainInv (tick_core bv st now price pnl_track p1) := by
  rw [tick_core]
  split_ifs
  · exact ⟨hq, ht⟩
  · exact ⟨hq, ht⟩
  · exact ⟨hq, ht⟩
  · exact ⟨hq, ht⟩
  · exact ⟨hq, ht⟩
  · exact tick_tp_chain_qty bv st price p1 hq hp ht

/-- C4 (amended): every tick-driven transition preserves
`0 ≤ remaining_quantity ≤ original_quantity` (for reachable positions:
quantities are 6-decimal quanta and the close percentages lie in [0, 100]);
and the rounded TP1 equality `remaining = round(original·(1 −
tp1_close_pct/100), 6)` holds whenever `tp1_hit = 1` AND `tp2_hit = 0` —
after TP2 the remaining quantity becomes `original·tp3_close_pct/100`
instead, so the claim restricted by `tp2_hit = 0` is what is preserved. -/
theorem remaining_quantity_invariant (bv : BotVersion) (st : Option Settings)
    (now price : ℚ) (pos : Position) (hq : QtyInv pos) (hp : PctOk st pos)
    (ht : Tp1RemainInv pos) :
    QtyInv (on_price_tick bv st now price pos)
    ∧ Tp1RemainInv (on_price_tick bv st now price pos) := by
  by_cases hclosed : pos.state = PState.closed
  · rw [on_price_tick, if_pos hclosed]
    exact ⟨hq, ht⟩
  · obtain ⟨mp, md, htr⟩ := v4_track_shape bv pos (calc_unrealized_pnl pos price)
    rw [on_price_tick, if_neg hclosed, htr]
    exact tick_core_qty bv st now price (calc_unrealized_pnl pos price) _ hq hp ht

/-- C4 witness: the S4 position satisfies the reachability hypotheses, and
the invariant transfers across the TP1 tick at price 101. -/
theorem remaining_quantity_invariant_witness :
    QtyInv (on_price_tick BotVersion.V2 none 0 101 s4_position)
    ∧ Tp1RemainInv (on_price_tick BotVersion.V2 none 0 101 s4_position) := by
  have hq : QtyInv s4_position :=
    ⟨by norm_num [s4_position], ⟨10000000, by norm_num [s4_position]⟩,
      by norm_num [s4_position], by norm_num [s4_position],
      ⟨10000000, by norm_num [s4_position]⟩⟩
  have hp : PctOk none s4_position :=
    ⟨by norm_num [s4_position], by norm_num [s4_position],
      by norm_num [s4_position], by norm_num [s4_position], trivial⟩
  have ht : Tp1RemainInv s4_position := by
    rintro ⟨h, -⟩
    simp [s4_position] at h
  exact remaining_quantity_invariant BotVersion.V2 none 0 101 s4_position hq hp ht

/-- C4 counterexample to the frozen claim: after the TP2 tick the S4
position still has `tp1_hit = 1` but its remaining quantity is 3 (the
TP2 resize `original · tp3_close_pct/100`), not the claimed
`round(original · (1 − tp1_close_pct/100), 6) = 6`. -/
theorem remaining_quantity_tp2_cex :
    (on_price_tick BotVersion.V2 none 0 102
      (on_price_tick BotVersion.V2 none 0 101 s4_position)).tp1_hit = true
    ∧ (on_price_tick BotVersion.V2 none 0 102
      (on_price_tick BotVersion.V2 none 0 101 s4_position)).remaining_quantity = 3
    ∧ pyRound 6 ((on_price_tick BotVersion.V2 none 0 102
        (on_price_tick BotVersion.V2 none 0 101 s4_position)).original_quantity
        * (1 - (on_price_tick BotVersion.V2 none 0 102
            (on_price_tick BotVersion.V2 none 0 101 s4_position)).tp1_close_pct / 100)) = 6
    ∧ (3 : ℚ) ≠ 6 := by
  refine ⟨?_, ?_, ?_, by norm_num⟩ <;>
    norm_num [on_price_tick, tick_core, tick_tp_chain, v4_track, calc_unrealized_pnl,
      get_min_profit_usd, get_max_loss_usd, getModeCfg, early_profit_protection,
      early_be_step, early_trail_step, fee_adjusted_breakeven, handle_tp1_hit,
      handle_tp2_hit, handle_sl_hit, close_with, check_quick_exit, check_stale_position,
      check_profit_giveback, s4_position, pyRound, rhe,
      show (PState.active = PState.closed) = False by simp,
      show (PState.breakeven = PState.closed) = False by simp,
      show (BotVersion.V2 = BotVersion.V4) = False by simp]
